import Mathlib

/-!
Shallow embedding of `pySim/filesystem.py` (ISO7816-4 smart-card filesystem
model): the `File`/`DF`/`MF`/`ADF`/`EF` tree, the selectables resolver, the
transparent/record codec dispatch chain, and the `RuntimeState` session
object.  Python objects live in a heap (`FS`, a list of `FileRec` indexed by
natural-number node ids) so that parent back-pointers and in-place mutation
(`DF.add_file`, `MF.add_application`) can be represented.  Python `dict`s
with string-or-`None` keys are association lists preserving insertion order;
Python exceptions are an explicit `PyErr` result; unbounded loops
(`File.get_mf`, `File.fully_qualified_path`) take a fuel argument whose
exhaustion is the distinct error `PyErr.nonTermination`.
-/

/-- Python truthiness of an optional string: `None` and the empty string are
falsy, every other string is truthy. -/
def truthyS : Option String → Bool
  | none => false
  | some s => s ≠ ""

/-- How Python `"%s" % x` renders an optional string (`None` prints as `None`). -/
def pyStr : Option String → String
  | none => "None"
  | some s => s

/-- How Python `"%s" % x` renders an optional int. -/
def pyStrN : Option Nat → String
  | none => "None"
  | some n => toString n

/-- A Python exception surfaced by the embedded code.  `nonTermination` and
`invalidRef` are artifacts of the embedding: the former stands for a loop or
recursion that Python would never exit, the latter for a dangling node id,
which cannot arise from a real Python object graph. -/
inductive PyErr where
  | attributeError
  | typeError (msg : String)
  | valueError (msg : String)
  | notImplementedError
  | nonTermination
  | invalidRef
deriving DecidableEq, Repr

/-- Raw binary data (Python `bytes`): a list of byte values. -/
abbrev Bytes := List Nat

/-- Abstract decoded values.  `bytes` and `tok` are uninterpreted abstract values a
type-specific codec may produce; `list` is the sequence produced by
`TransRecEF._decode_bin`; `rawDict` is the `\x7b'raw': data\x7d` wrapper
dictionary of the codec fallbacks. -/
inductive Value where
  | bytes (bs : Bytes)
  | tok (n : Nat)
  | rawDict (bs : Bytes)
  | list (vs : List Value)

/-- Python `getattr(obj, attr)` **without a default argument**: when the
attribute is absent it raises `AttributeError`; when present (a bound
method), it is returned. -/
def getattrOrRaise {α : Type} (a : Option α) : Except PyErr α :=
  match a with
  | some v => Except.ok v
  | none => Except.error PyErr.attributeError

/-- The optional type-specific codec attributes of a `TransparentEF`
instance: `_decode_bin`, `_decode_hex`, `_encode_bin`, `_encode_hex`
(each present only when a subclass defines it). -/
structure TransparentEFCodec where
  decBin : Option (Bytes → Value)
  decHex : Option (String → Value)
  encBin : Option (Value → Bytes)
  encHex : Option (Value → String)

/-- `TransparentEF.decode_bin` (filesystem.py lines 292-300).  The source
calls `getattr(self, ..)` with no default, so when the subtype defines no
`_decode_bin` the call raises `AttributeError`; the `callable(method)` test
always holds for a bound method, hence the `_decode_hex` fallback (lines
297-299) and the final `return` of the raw wrapper (line 300) are
unreachable. -/
def TransparentEF.decode_bin (ef : TransparentEFCodec) (raw_bin_data : Bytes) :
    Except PyErr Value := do
  let method ← getattrOrRaise ef.decBin
  return method raw_bin_data

/-- `TransparentEF.encode_bin` (lines 312-320).  As in `decode_bin`, the
default-less `getattr` raises `AttributeError` when `_encode_bin` is absent;
the `_encode_hex` fallback and the final `raise NotImplementedError` are
unreachable. -/
def TransparentEF.encode_bin (ef : TransparentEFCodec) (abstract_data : Value) :
    Except PyErr Bytes := do
  let method ← getattrOrRaise ef.encBin
  return method abstract_data

/-- `TransparentEF.encode_hex` (lines 322-330); same unreachable-fallback
structure, probing `_encode_hex` first. -/
def TransparentEF.encode_hex (ef : TransparentEFCodec) (abstract_data : Value) :
    Except PyErr String := do
  let method ← getattrOrRaise ef.encHex
  return method abstract_data

/-- The attributes of a `TransRecEF` instance: the fixed record length
(`rec_len`, possibly `None`) and the four optional record-level codec
attributes a subclass may define. -/
structure TransRecEFRec where
  rec_len : Option Nat
  decRecBin : Option (Bytes → Value)
  decRecHex : Option (String → Value)
  encRecBin : Option (Value → Bytes)
  encRecHex : Option (Value → String)

/-- `TransRecEF.decode_record_bin` (lines 444-452): probes
`_decode_record_bin` with a default-less `getattr` (raising
`AttributeError` when absent), so the `_decode_record_hex` fallback and the
raw-wrapper return are unreachable. -/
def TransRecEF.decode_record_bin (ef : TransRecEFRec) (raw_bin_data : Bytes) :
    Except PyErr Value := do
  let method ← getattrOrRaise ef.decRecBin
  return method raw_bin_data

/-- `TransRecEF.encode_record_bin` (lines 464-472): probes
`_encode_record_bin`; the `_encode_record_hex` fallback and the final
`raise NotImplementedError` are unreachable. -/
def TransRecEF.encode_record_bin (ef : TransRecEFRec) (abstract_data : Value) :
    Except PyErr Bytes := do
  let method ← getattrOrRaise ef.encRecBin
  return method abstract_data

/-- Number of chunks produced by `range(0, L, R)`, namely the ceiling of
`L / R` (for `R` at least 1). -/
def pyChunkCount (L R : Nat) : Nat := (L + R - 1) / R

/-- The chunking comprehension of `TransRecEF._decode_bin` (line 475):
`[raw[i : i+R] for i in range(0, len(raw), R)]`.  The indices of
`range(0, L, R)` are `0, R, 2R, ..`, i.e. `k * R` for `k` below the chunk
count, and the slice `raw[i : i+R]` is `take R` after `drop i`. -/
def pySliceChunks (raw : Bytes) (R : Nat) : List Bytes :=
  (List.range (pyChunkCount raw.length R)).map (fun k => (raw.drop (k * R)).take R)

/-- `TransRecEF._decode_bin` (lines 474-476).  `range(0, len(raw), None)`
raises `TypeError`, `range(.., 0)` raises `ValueError`; otherwise each chunk
is decoded through `decode_record_bin` (the list comprehension propagates
the first exception). -/
def TransRecEF._decode_bin (ef : TransRecEFRec) (raw_bin_data : Bytes) :
    Except PyErr (List Value) :=
  match ef.rec_len with
  | none => Except.error (PyErr.typeError "range arg 3 must not be NoneType")
  | some R =>
    if R = 0 then Except.error (PyErr.valueError "range arg 3 must not be zero")
    else (pySliceChunks raw_bin_data R).mapM (TransRecEF.decode_record_bin ef)

/-- `TransRecEF._encode_bin` (lines 478-481): encode each abstract record
and join the resulting byte strings (no padding to file size). -/
def TransRecEF._encode_bin (ef : TransRecEFRec) (abstract_data : List Value) :
    Except PyErr Bytes := do
  let chunks ← abstract_data.mapM (TransRecEF.encode_record_bin ef)
  return chunks.flatten

/-- The (sub)class of a node in the Python class hierarchy:
`MF` and `ADF` are subclasses of `DF`; `TransparentEF`, `LinFixedEF` and the
plain `EF` are subclasses of `EF`; `CyclicEF` subclasses `LinFixedEF` and
`TransRecEF` subclasses `TransparentEF`. -/
inductive FileKind where
  | mf | df | adf | ef | transparentEF | linFixedEF | cyclicEF | transRecEF
deriving DecidableEq, Repr

/-- `isinstance(x, DF)`: `DF`, `MF` and `ADF` instances. -/
def isinstanceDF : FileKind → Bool
  | FileKind.mf | FileKind.df | FileKind.adf => true
  | _ => false

/-- `isinstance(x, TransparentEF)`: `TransparentEF` and its subclass `TransRecEF`. -/
def isinstanceTransparentEF : FileKind → Bool
  | FileKind.transparentEF | FileKind.transRecEF => true
  | _ => false

/-- `isinstance(x, LinFixedEF)`: `LinFixedEF` and its subclass `CyclicEF`. -/
def isinstanceLinFixedEF : FileKind → Bool
  | FileKind.linFixedEF | FileKind.cyclicEF => true
  | _ => false

/-- The attributes of one `File` object.  `children` (a `DF` attribute) and
`applications` (an `MF` attribute) are Python dicts keyed by `fid` resp.
`aid`; both keys and these identity fields may be `None`, hence
`Option String` keys.  `parent` is a node id into the heap, `none` for an
unset parent. -/
structure FileRec where
  kind : FileKind
  fid : Option String := none
  sfid : Option Nat := none
  name : Option String := none
  parent : Option Nat := none
  children : List (Option String × Nat) := []
  applications : List (Option String × Nat) := []
  aid : Option String := none
deriving DecidableEq, Repr

/-- The heap of `File` objects; node ids index into the list. -/
abbrev FS := List FileRec

/-- A Python dict with `Option String` keys and node-id values, as an
insertion-ordered association list (`children`, `applications`, and every
selectables mapping have this shape). -/
abbrev PyDict := List (Option String × Nat)

/-- `d[k] = v` on a Python dict: update in place when the key exists,
append otherwise. -/
def alInsert : PyDict → Option String → Nat → PyDict
  | [], k, v => [(k, v)]
  | (k0, v0) :: rest, k, v =>
    if k0 = k then (k, v) :: rest else (k0, v0) :: alInsert rest k v

/-- Key lookup `d[k]` / `k in d` on a Python dict. -/
def alFind? : PyDict → Option String → Option Nat
  | [], _ => none
  | (k0, v0) :: rest, k => if k0 = k then some v0 else alFind? rest k

/-- Python dict merge `d | e` (and `d |= e`): entries of `e` inserted into
`d` in order, overwriting values of existing keys in place. -/
def alUnion (d e : PyDict) : PyDict :=
  e.foldl (fun acc kv => alInsert acc kv.1 kv.2) d

/-- `File.RESERVED_NAMES` (line 37). -/
def RESERVED_NAMES : List String := ["..", ".", "/", "MF"]

/-- `File.RESERVED_FIDS` (line 38). -/
def RESERVED_FIDS : List String := ["3f00"]

/-- `File._get_self_selectables(alias)` (lines 85-94): the dict of
identifiers resolving to the node itself, guarded by Python truthiness of
`alias`, `fid` and `name`. -/
def File._get_self_selectables (f : FileRec) (n : Nat) (aliasArg : Option String) : PyDict :=
  let sels : PyDict := []
  let sels := if truthyS aliasArg then alInsert sels aliasArg n else sels
  let sels := if truthyS f.fid then alInsert sels f.fid n else sels
  if truthyS f.name then alInsert sels f.name n else sels

/-- The `while node.parent != node` climb of `File.get_mf` (lines 79-83),
with fuel.  When a node's `parent` is `None` mid-climb, Python sets
`node = None` and crashes with `AttributeError` on the next loop test. -/
def get_mf_loop (fs : FS) : Nat → Nat → Except PyErr (Option Nat)
  | 0, _ => Except.error PyErr.nonTermination
  | fuel + 1, m =>
    match fs[m]? with
    | none => Except.error PyErr.invalidRef
    | some g =>
      match g.parent with
      | some p => if p = m then Except.ok (some m) else get_mf_loop fs fuel p
      | none => Except.error PyErr.attributeError

/-- `File.get_mf` (lines 75-83): `None` when the node's own parent is unset,
otherwise climb parent links until `parent == self`. -/
def File.get_mf (fs : FS) (fuel n : Nat) : Except PyErr (Option Nat) :=
  match fs[n]? with
  | none => Except.error PyErr.invalidRef
  | some f =>
    match f.parent with
    | none => Except.ok none
    | some _ => get_mf_loop fs fuel n

/-- `MF.get_app_selectables` (lines 206-210): applications keyed by `aid`
(unconditionally) then by `name` (if truthy).  The method exists only on
`MF`; calling it on any other class raises `AttributeError`. -/
def MF.get_app_selectables (fs : FS) (m : Nat) : Except PyErr PyDict :=
  match fs[m]? with
  | none => Except.error PyErr.invalidRef
  | some f =>
    if f.kind ≠ FileKind.mf then Except.error PyErr.attributeError
    else
      let byAid := f.applications.foldl
        (fun acc kv => match fs[kv.2]? with
          | some a => alInsert acc a.aid kv.2
          | none => acc) []
      let byName := f.applications.foldl
        (fun acc kv => match fs[kv.2]? with
          | some a => if truthyS a.name then alInsert acc a.name kv.2 else acc
          | none => acc) []
      Except.ok (alUnion byAid byName)

/-- `File.get_selectables` (lines 96-106).  Line 99 builds the
self-selectables with alias `.` but line 101 *reassigns* `sels` (it is
`sels = ..`, not `sels |= ..`), so that dict is discarded and replaced by
the parent's self-selectables with alias `..`; when `parent` is `None` the
attribute access on line 101 raises `AttributeError`.  Afterwards the MF's
application selectables are merged in when `get_mf` finds an MF. -/
def File.get_selectables (fs : FS) (fuel n : Nat) : Except PyErr PyDict := do
  match fs[n]? with
  | none => Except.error PyErr.invalidRef
  | some f =>
    let sels := File._get_self_selectables f n (some ".")
    match f.parent with
    | none => Except.error PyErr.attributeError
    | some p =>
      match fs[p]? with
      | none => Except.error PyErr.invalidRef
      | some pf =>
        let sels := File._get_self_selectables pf p (some "..")
        let mf? ← File.get_mf fs fuel n
        match mf? with
        | some m => do
          let apps ← MF.get_app_selectables fs m
          return alUnion sels apps
        | none => return sels

/-- `DF.get_selectables` (lines 149-155): the `File` selectables plus the
children keyed by `fid` (if truthy) and by `name` (if truthy). -/
def DF.get_selectables (fs : FS) (fuel n : Nat) : Except PyErr PyDict := do
  let sels ← File.get_selectables fs fuel n
  match fs[n]? with
  | none => Except.error PyErr.invalidRef
  | some f =>
    let byFid := f.children.foldl
      (fun acc kv => match fs[kv.2]? with
        | some r => if truthyS r.fid then alInsert acc r.fid kv.2 else acc
        | none => acc) []
    let byName := f.children.foldl
      (fun acc kv => match fs[kv.2]? with
        | some r => if truthyS r.name then alInsert acc r.name kv.2 else acc
        | none => acc) []
    return alUnion (alUnion sels byFid) byName

/-- `MF.get_selectables` (lines 200-204): the `DF` selectables plus (again)
the application selectables. -/
def MF.get_selectables (fs : FS) (fuel n : Nat) : Except PyErr PyDict := do
  let sels ← DF.get_selectables fs fuel n
  let apps ← MF.get_app_selectables fs n
  return alUnion sels apps

/-- `EF.get_selectables` (lines 240-245): the `File` selectables plus every
sibling (children of the parent other than the node itself) keyed by `name`
-- note the comprehension has no truthiness filter on `name`, so a sibling
with `name == None` contributes a `None` key.  `self.parent.children` on an
unset parent raises `AttributeError`. -/
def EF.get_selectables (fs : FS) (fuel n : Nat) : Except PyErr PyDict := do
  let sels ← File.get_selectables fs fuel n
  match fs[n]? with
  | none => Except.error PyErr.invalidRef
  | some f =>
    match f.parent with
    | none => Except.error PyErr.attributeError
    | some p =>
      match fs[p]? with
      | none => Except.error PyErr.invalidRef
      | some pf =>
        let sibs := pf.children.foldl
          (fun acc kv =>
            if kv.2 = n then acc
            else match fs[kv.2]? with
              | some r => alInsert acc r.name kv.2
              | none => acc) []
        return alUnion sels sibs

/-- Dynamic dispatch of `get_selectables` on the node's class. -/
def File.get_selectables_dyn (fs : FS) (fuel n : Nat) : Except PyErr PyDict :=
  match fs[n]? with
  | none => Except.error PyErr.invalidRef
  | some f =>
    match f.kind with
    | FileKind.mf => MF.get_selectables fs fuel n
    | FileKind.df | FileKind.adf => DF.get_selectables fs fuel n
    | _ => EF.get_selectables fs fuel n

/-- `File._path_element` (lines 60-64). -/
def File._path_element (f : FileRec) (prefer_name : Bool) : Option String :=
  if prefer_name && truthyS f.name then f.name else f.fid

/-- `ADF._path_element` (lines 225-229): `aid` instead of `fid`. -/
def ADF._path_element (f : FileRec) (prefer_name : Bool) : Option String :=
  if truthyS f.name && prefer_name then f.name else f.aid

/-- Dynamic dispatch of `_path_element` (only `ADF` overrides it). -/
def path_element_dyn (f : FileRec) (prefer_name : Bool) : Option String :=
  match f.kind with
  | FileKind.adf => ADF._path_element f prefer_name
  | _ => File._path_element f prefer_name

/-- `File.fully_qualified_path` (lines 66-73), with fuel for the recursion
up the parent chain.  The guard is `self.parent != self`; a `None` parent
passes the guard and then crashes with `AttributeError` on the recursive
attribute access. -/
def File.fully_qualified_path (fs : FS) :
    Nat → Nat → Bool → Except PyErr (List (Option String))
  | 0, _, _ => Except.error PyErr.nonTermination
  | fuel + 1, n, prefer_name =>
    match fs[n]? with
    | none => Except.error PyErr.invalidRef
    | some f =>
      if f.parent = some n then
        Except.ok [path_element_dyn f prefer_name]
      else
        match f.parent with
        | none => Except.error PyErr.attributeError
        | some p =>
          match File.fully_qualified_path fs fuel p prefer_name with
          | Except.ok ret => Except.ok (ret ++ [path_element_dyn f prefer_name])
          | Except.error e => Except.error e

/-- `DF.lookup_file_by_name` (lines 157-163): first child whose `name` is
truthy and equal to the query; `None` query short-circuits to `None`. -/
def DF.lookup_file_by_name (fs : FS) (d : FileRec) (name : Option String) : Option Nat :=
  match name with
  | none => none
  | some s =>
    (d.children.map Prod.snd).find? (fun i =>
      match fs[i]? with
      | some r => truthyS r.name && r.name = some s
      | none => false) 

/-- `DF.lookup_file_by_sfid` (lines 165-171): first child whose `sfid`
equals the (numeric) query; `None` query short-circuits to `None`. -/
def DF.lookup_file_by_sfid (fs : FS) (d : FileRec) (sfid : Option Nat) : Option Nat :=
  match sfid with
  | none => none
  | some s =>
    (d.children.map Prod.snd).find? (fun i =>
      match fs[i]? with
      | some r => r.sfid = some s
      | none => false)

/-- The test `child.name in File.RESERVED_NAMES` of `DF.add_file` line 127
(`None` is never in the list). -/
def nameIsReserved (crec : FileRec) : Bool :=
  match crec.name with
  | some s => RESERVED_NAMES.contains s
  | none => false

/-- The test `child.fid in File.RESERVED_FIDS` of `DF.add_file` line 129. -/
def fidIsReserved (crec : FileRec) : Bool :=
  match crec.fid with
  | some s => RESERVED_FIDS.contains s
  | none => false

/-- `DF.add_file` (lines 123-142).  Checks in source order: reserved name,
reserved fid, duplicate fid (silent return when `ignore_existing`),
duplicate sfid (always raises), duplicate name (silent return when
`ignore_existing`); only then the two mutations `self.children[child.fid] =
child` and `child.parent = self`.  (The `isinstance(child, File)` guard is
outside the embedded surface: every heap entry is a `File`.)  Returns the
raised exception (if any) and the heap after the call; the child record is
re-read after the first mutation so that `add_file` of a node into itself
aliases correctly. -/
def DF.add_file (fs : FS) (self child : Nat) (ignore_existing : Bool) :
    Option PyErr × FS :=
  match fs[self]?, fs[child]? with
  | some drec, some crec =>
    if nameIsReserved crec then
      (some (PyErr.valueError ("File name " ++ pyStr crec.name ++ " is a reserved name")), fs)
    else if fidIsReserved crec then
      (some (PyErr.valueError ("File fid " ++ pyStr crec.fid ++ " is a reserved name")), fs)
    else if (alFind? drec.children crec.fid).isSome then
      if ignore_existing then (none, fs)
      else (some (PyErr.valueError ("File with given fid " ++ pyStr crec.fid ++ " already exists")), fs)
    else if (DF.lookup_file_by_sfid fs drec crec.sfid).isSome then
      (some (PyErr.valueError ("File with given sfid " ++ pyStrN crec.sfid ++ " already exists")), fs)
    else if (DF.lookup_file_by_name fs drec crec.name).isSome then
      if ignore_existing then (none, fs)
      else (some (PyErr.valueError ("File with given name " ++ pyStr crec.name ++ " already exists")), fs)
    else
      let fs1 := fs.set self { drec with children := alInsert drec.children crec.fid child }
      let fs2 := match fs1[child]? with
        | some c1 => fs1.set child { c1 with parent := some self }
        | none => fs1
      (none, fs2)
  | _, _ => (some PyErr.invalidRef, fs)

/-- `MF.add_application` (lines 188-194): `TypeError` for a non-`ADF`
argument, `ValueError` for a duplicate `aid` (there is **no**
ignore-existing mode), otherwise registers the application.  Note that it
does *not* set `app.parent`. -/
def MF.add_application (fs : FS) (self app : Nat) : Option PyErr × FS :=
  match fs[self]?, fs[app]? with
  | some mrec, some arec =>
    if arec.kind ≠ FileKind.adf then
      (some (PyErr.typeError "Expected an ADF instance"), fs)
    else if (alFind? mrec.applications arec.aid).isSome then
      (some (PyErr.valueError ("AID " ++ pyStr arec.aid ++ " already exists")), fs)
    else
      (none, fs.set self { mrec with applications := alInsert mrec.applications arec.aid app })
  | _, _ => (some PyErr.invalidRef, fs)

/-- A call issued to the external transport (`self.card._scc`), recorded
abstractly: the transport is an external collaborator of this layer. -/
inductive TransportCall where
  | selectAdf (aid : Option String)
  | selectFile (fid : Option String)
  | readBinary (fid : Option String) (length : Option Nat) (offset : Nat)
  | updateBinary (fid : Option String) (data_hex : String) (offset : Nat)
  | readRecord (fid : Option String) (rec_nr : Nat)
  | updateRecord (fid : Option String) (rec_nr : Nat) (data_hex : String)
deriving DecidableEq, Repr

/-- `RuntimeState` (lines 487-492): the session object.  `card` is the
external transport (abstracted into recorded `TransportCall`s). -/
structure RuntimeState where
  mf : Nat
  selected_file : Nat
deriving DecidableEq, Repr

/-- `RuntimeState.select` (lines 500-520): look the identifier up in the
selectables of the currently selected file; when absent raise
`ValueError("Cannot select unknown ..")` with no transport call and no
state change; when present issue `select_adf`/`select_file` to the
transport and update `selected_file`.  (Shell-command registration is an
external side effect, elided with `cmd_app = None`.)  Result: raised
exception (if any), transport calls issued, and the session state after
the call. -/
def RuntimeState.select (fs : FS) (fuel : Nat) (rs : RuntimeState) (name : String) :
    Option PyErr × List TransportCall × RuntimeState :=
  match File.get_selectables_dyn fs fuel rs.selected_file with
  | Except.error e => (some e, [], rs)
  | Except.ok sels =>
    match alFind? sels (some name) with
    | none => (some (PyErr.valueError ("Cannot select unknown " ++ name)), [], rs)
    | some f =>
      match fs[f]? with
      | none => (some PyErr.invalidRef, [], rs)
      | some frec =>
        if frec.kind = FileKind.adf then
          (none, [TransportCall.selectAdf frec.aid], { rs with selected_file := f })
        else
          (none, [TransportCall.selectFile frec.fid], { rs with selected_file := f })

/-- `RuntimeState.read_binary` (lines 522-525): raise `TypeError` unless the
selected file is a `TransparentEF` (which includes `TransRecEF`), else
delegate to the transport keyed by the selected fid.  The raise precedes
the transport call, so an error result carries no transport calls. -/
def RuntimeState.read_binary (fs : FS) (rs : RuntimeState)
    (length : Option Nat) (offset : Nat) : Except PyErr (List TransportCall) :=
  match fs[rs.selected_file]? with
  | none => Except.error PyErr.invalidRef
  | some f =>
    if ¬ isinstanceTransparentEF f.kind then
      Except.error (PyErr.typeError "Only works with TransparentEF")
    else
      Except.ok [TransportCall.readBinary f.fid length offset]

/-- `RuntimeState.update_binary` (lines 531-534): same type gate as
`read_binary`. -/
def RuntimeState.update_binary (fs : FS) (rs : RuntimeState)
    (data_hex : String) (offset : Nat) : Except PyErr (List TransportCall) :=
  match fs[rs.selected_file]? with
  | none => Except.error PyErr.invalidRef
  | some f =>
    if ¬ isinstanceTransparentEF f.kind then
      Except.error (PyErr.typeError "Only works with TransparentEF")
    else
      Except.ok [TransportCall.updateBinary f.fid data_hex offset]

/-- `RuntimeState.read_record` (lines 540-543): raise `TypeError` unless the
selected file is a `LinFixedEF` (which includes `CyclicEF`), else delegate
to the transport. -/
def RuntimeState.read_record (fs : FS) (rs : RuntimeState) (rec_nr : Nat) :
    Except PyErr (List TransportCall) :=
  match fs[rs.selected_file]? with
  | none => Except.error PyErr.invalidRef
  | some f =>
    if ¬ isinstanceLinFixedEF f.kind then
      Except.error (PyErr.typeError "Only works with Linear Fixed EF")
    else
      Except.ok [TransportCall.readRecord f.fid rec_nr]

/-- `RuntimeState.update_record` (lines 549-552): same type gate as
`read_record`. -/
def RuntimeState.update_record (fs : FS) (rs : RuntimeState)
    (rec_nr : Nat) (data_hex : String) : Except PyErr (List TransportCall) :=
  match fs[rs.selected_file]? with
  | none => Except.error PyErr.invalidRef
  | some f =>
    if ¬ isinstanceLinFixedEF f.kind then
      Except.error (PyErr.typeError "Only works with Linear Fixed EF")
    else
      Except.ok [TransportCall.updateRecord f.fid rec_nr data_hex]

/-- The parent chain from a node reaches, in `k` steps, a Root (an `MF`
whose `parent` is itself): the claims' notion of a well-formed tree. -/
inductive ReachesRoot (fs : FS) : Nat → Nat → Nat → Prop where
  | root (n : Nat) (f : FileRec) (hf : fs[n]? = some f) (hp : f.parent = some n)
      (hk : f.kind = FileKind.mf) : ReachesRoot fs n n 0
  | step (n p r k : Nat) (f : FileRec) (hf : fs[n]? = some f) (hp : f.parent = some p)
      (hne : p ≠ n) (ht : ReachesRoot fs p r k) : ReachesRoot fs n r (k + 1)

/-- A `TransparentEF` (e.g. `EF.Kc`) on which no type-specific codec is
defined. -/
def efNoCodec : TransparentEFCodec :=
  { decBin := none, decHex := none, encBin := none, encHex := none }

/-- A concrete type-specific hex decoder. -/
def decHexW : String → Value := fun _ => Value.tok 0

/-- A `TransparentEF` (e.g. `EF.IMSI` of fs_sim.py) defining only the hex
codec direction. -/
def efHexOnlyCodec : TransparentEFCodec :=
  { decBin := none, decHex := some decHexW, encBin := none, encHex := none }

/-- A concrete type-specific binary decoder. -/
def decBinW : Bytes → Value := Value.bytes

/-- A `TransparentEF` (e.g. `EF.ACC` of fs_sim.py) defining the binary
codec direction. -/
def efBinOnlyCodec : TransparentEFCodec :=
  { decBin := some decBinW, decHex := none, encBin := none, encHex := none }

/-- A concrete record-level binary encoder inverting `decBinW`. -/
def encBinW : Value → Bytes := fun v =>
  match v with
  | Value.bytes bs => bs
  | _ => []

/-- A `TransRecEF` with record length 2 and a round-tripping record codec. -/
def efW3 : TransRecEFRec :=
  { rec_len := some 2, decRecBin := some decBinW, decRecHex := none,
    encRecBin := some encBinW, encRecHex := none }

/-- A `TransRecEF` with record length 1 and the default record codec
(no type-specific record encoder/decoder defined), e.g. `EF.PLMNsel`. -/
def efW3default : TransRecEFRec :=
  { rec_len := some 1, decRecBin := none, decRecHex := none,
    encRecBin := none, encRecHex := none }

/-- Heap: an `MF()` root alone at node 0 (as built by `MF.__init__`:
fid `3f00`, name `MF`, parent itself). -/
def fsMF : FS :=
  [{ kind := FileKind.mf, fid := some "3f00", name := some "MF", parent := some 0 }]

/-- Heap: the `MF()` root (node 0) with one `DF("7f10")` child (node 1),
as left by `mf.add_file(DF(fid="7f10"))`. -/
def fsMFDF : FS :=
  [ { kind := FileKind.mf, fid := some "3f00", name := some "MF", parent := some 0,
      children := [(some "7f10", 1)] },
    { kind := FileKind.df, fid := some "7f10", parent := some 0 } ]

/-- Heap for the C9 scenario before registration: node 0 the `MF()` root,
node 1 the `ADF("a0000000871002", name="ADF_USIM", parent=mf)` (its
`File.__init__` stores `parent` but, having no fid, does not call
`add_file`), node 2 a fresh `TransparentEF("6f07", name="EF.IMSI")`. -/
def fs9Init : FS :=
  [ { kind := FileKind.mf, fid := some "3f00", name := some "MF", parent := some 0 },
    { kind := FileKind.adf, name := some "ADF_USIM", aid := some "a0000000871002",
      parent := some 0 },
    { kind := FileKind.transparentEF, fid := some "6f07", name := some "EF.IMSI" } ]

/-- The C9 heap after `ADF.__init__` runs `parent.add_application(self)`. -/
def fs9Mid : FS := (MF.add_application fs9Init 0 1).2

/-- The C9 heap after `adf.add_file(TransparentEF("6f07", name="EF.IMSI"))`. -/
def fs9 : FS := (DF.add_file fs9Mid 1 2 false).2

/-- Heap for the C6 counterexample: a `DF("5f3a")` with one child of sfid 1,
and a detached candidate child with a fresh fid but the same sfid. -/
def fsC6 : FS :=
  [ { kind := FileKind.df, fid := some "5f3a", children := [(some "6f01", 1)] },
    { kind := FileKind.linFixedEF, fid := some "6f01", sfid := some 1, parent := some 0 },
    { kind := FileKind.linFixedEF, fid := some "6f02", sfid := some 1 } ]

/-- Heap exercising all four duplicate-insertion cases: a `DF` (node 0)
with one child (node 1, fid `6f01`, sfid 1, name `EF.A`); detached
candidates duplicating its fid (node 2), sfid (node 3) and name (node 4);
an `MF` (node 5) with one registered application (node 6, aid `a01`) and a
detached duplicate-aid application (node 7). -/
def fsW6 : FS :=
  [ { kind := FileKind.df, fid := some "5f3a", children := [(some "6f01", 1)] },
    { kind := FileKind.linFixedEF, fid := some "6f01", sfid := some 1,
      name := some "EF.A", parent := some 0 },
    { kind := FileKind.transparentEF, fid := some "6f01" },
    { kind := FileKind.transparentEF, fid := some "6f02", sfid := some 1 },
    { kind := FileKind.transparentEF, fid := some "6f03", name := some "EF.A" },
    { kind := FileKind.mf, fid := some "3f00", name := some "MF", parent := some 5,
      applications := [(some "a01", 6)] },
    { kind := FileKind.adf, aid := some "a01" },
    { kind := FileKind.adf, aid := some "a01" } ]

/-- Heap: an `MF()` root (node 0) and, selected in some session states, a
detached-from-nothing `TransparentEF("6f07")` child of the root (node 1). -/
def fsW7 : FS :=
  [ { kind := FileKind.mf, fid := some "3f00", name := some "MF", parent := some 0,
      children := [(some "6f07", 1)] },
    { kind := FileKind.transparentEF, fid := some "6f07", name := some "EF.IMSI",
      parent := some 0 } ]

/-- The selectables of the root of `fsMF`, spelled out. -/
def selsMF : PyDict := [(some "..", 0), (some "3f00", 0), (some "MF", 0)]

/-- Heap for the C10 witness: a `DF` and a candidate child bearing the
reserved name `MF`. -/
def fsW10 : FS :=
  [ { kind := FileKind.df, fid := some "5f3a" },
    { kind := FileKind.transparentEF, fid := some "6f10", name := some "MF" } ]

theorem pyChunkCount_zero (R : Nat) (hR : 0 < R) : pyChunkCount 0 R = 0 := by
  simp only [pyChunkCount, Nat.zero_add]
  exact Nat.div_eq_of_lt (by omega)

theorem pyChunkCount_succ (L R : Nat) (hR : 0 < R) (hL : 0 < L) :
    pyChunkCount L R = pyChunkCount (L - R) R + 1 := by
  unfold pyChunkCount
  have h1 : L + R - 1 = (L - 1) + R := by omega
  rw [h1, Nat.add_div_right _ hR]
  rcases le_or_lt R L with hle | hlt
  · have h2 : L - R + R - 1 = L - 1 := by omega
    rw [h2]
  · have h2 : L - R = 0 := by omega
    rw [h2]
    have h3 : (0 + R - 1) / R = 0 := Nat.div_eq_of_lt (by omega)
    have h4 : (L - 1) / R = 0 := Nat.div_eq_of_lt (by omega)
    rw [h3, h4]

theorem pySliceChunks_nil (R : Nat) (hR : 0 < R) : pySliceChunks [] R = [] := by
  simp [pySliceChunks, pyChunkCount_zero R hR]

theorem pySliceChunks_cons (R : Nat) (hR : 0 < R) (raw : Bytes) (hraw : raw ≠ []) :
    pySliceChunks raw R = raw.take R :: pySliceChunks (raw.drop R) R := by
  have hL : 0 < raw.length := List.length_pos.mpr hraw
  unfold pySliceChunks
  rw [List.length_drop]
  rw [pyChunkCount_succ raw.length R hR hL]
  rw [List.range_succ_eq_map]
  rw [List.map_cons, List.map_map]
  congr 1
  · simp
  · apply List.map_congr_left
    intro k _
    simp only [Function.comp_apply]
    rw [List.drop_drop, Nat.succ_mul, Nat.add_comm]

theorem flatten_pySliceChunks_aux (R : Nat) (hR : 0 < R) :
    ∀ (n : Nat) (raw : Bytes), raw.length ≤ n → (pySliceChunks raw R).flatten = raw := by
  intro n
  induction n with
  | zero =>
    intro raw hlen
    have hnil : raw = [] := List.eq_nil_of_length_eq_zero (by omega)
    subst hnil
    rw [pySliceChunks_nil R hR]
    rfl
  | succ m ih =>
    intro raw hlen
    rcases raw with _ | ⟨a, t⟩
    · rw [pySliceChunks_nil R hR]
      rfl
    · rw [pySliceChunks_cons R hR _ (by simp)]
      rw [List.flatten_cons]
      rw [ih ((a :: t).drop R)
        (by simp only [List.length_drop, List.length_cons] at *; omega)]
      exact List.take_append_drop R (a :: t)

theorem flatten_pySliceChunks (R : Nat) (hR : 0 < R) (raw : Bytes) :
    (pySliceChunks raw R).flatten = raw :=
  flatten_pySliceChunks_aux R hR raw.length raw (Nat.le_refl _)

theorem pySliceChunks_length_aux (R : Nat) (hR : 0 < R) :
    ∀ (n : Nat) (raw : Bytes), raw.length ≤ n → raw.length % R = 0 →
      ∀ c ∈ pySliceChunks raw R, c.length = R := by
  intro n
  induction n with
  | zero =>
    intro raw hlen _ c hc
    have hnil : raw = [] := List.eq_nil_of_length_eq_zero (by omega)
    subst hnil
    rw [pySliceChunks_nil R hR] at hc
    simp at hc
  | succ m ih =>
    intro raw hlen hmod c hc
    rcases raw with _ | ⟨a, t⟩
    · rw [pySliceChunks_nil R hR] at hc
      simp at hc
    · rw [pySliceChunks_cons R hR _ (by simp)] at hc
      have hdvd : R ∣ (a :: t).length := Nat.dvd_of_mod_eq_zero hmod
      have hRle : R ≤ (a :: t).length := Nat.le_of_dvd (by simp) hdvd
      rcases List.mem_cons.mp hc with hc1 | hc2
      · subst hc1
        rw [List.length_take]
        omega
      · obtain ⟨kk, hkk⟩ := hdvd
        rcases kk with _ | j
        · simp at hkk
        · apply ih ((a :: t).drop R)
            (by simp only [List.length_drop, List.length_cons] at *; omega)
            (by
              rw [List.length_drop]
              have hsub : (a :: t).length - R = R * j := by
                rw [hkk, Nat.mul_succ]; omega
              rw [hsub, Nat.mul_mod_right])
            c hc2

theorem mapM_ok_of_ok {α β ε : Type} (g : α → Except ε β) (f : α → β)
    (l : List α) (h : ∀ a ∈ l, g a = Except.ok (f a)) :
    l.mapM g = Except.ok (l.map f) := by
  induction l with
  | nil => rfl
  | cons a t ih =>
    rw [List.mapM_cons]
    rw [h a (List.mem_cons_self a t), ih (fun x hx => h x (List.mem_cons_of_mem a hx))]
    rfl

/-- Claim C1: the spec asserts that `File.get_selectables` always contains
`.` mapped to the node itself and `..` mapped to its parent (the Root for
itself).  The code contradicts it (and its own comment `we can always
select ourself`): line 101 *reassigns* `sels` instead of merging, so the
`.` entry of line 99 is discarded.  Evaluated on the `MF()` root and on a
`DF` child: the result holds `..` (mapped to the parent) but no `.` key at
all. -/
theorem claim_C1_dot_selectable_missing :
    (File.get_selectables_dyn fsMF 5 0).map
        (fun s => (alFind? s (some "."), alFind? s (some ".."))) =
      Except.ok (none, some 0) ∧
    (File.get_selectables_dyn fsMFDF 5 1).map
        (fun s => (alFind? s (some "."), alFind? s (some ".."))) =
      Except.ok (none, some 0) :=
  ⟨rfl, rfl⟩

/-- Claim C4: the spec asserts `TransparentEF.decode_bin` falls back to the
hex decoder and then to a raw wrapper.  The code applies a defined
`_decode_bin` (first conjunct), but with only `_decode_hex` defined, or
with no decoder at all, the default-less `getattr(self, '_decode_bin')`
raises `AttributeError` instead of falling back. -/
theorem claim_C4_decode_bin_dispatch :
    TransparentEF.decode_bin efBinOnlyCodec [1, 2] = Except.ok (Value.bytes [1, 2]) ∧
    TransparentEF.decode_bin efHexOnlyCodec [1, 2] = Except.error PyErr.attributeError ∧
    TransparentEF.decode_bin efNoCodec [1, 2] = Except.error PyErr.attributeError :=
  ⟨rfl, rfl, rfl⟩

/-- Claim C5: the spec asserts that with neither encoder defined,
`encode_bin`/`encode_hex` fail with `NotImplementedError`.  They do fail on
every input, but with `AttributeError` from the default-less `getattr`; the
`raise NotImplementedError` line is unreachable. -/
theorem claim_C5_encode_without_encoder_fails :
    TransparentEF.encode_bin efNoCodec (Value.tok 0) = Except.error PyErr.attributeError ∧
    TransparentEF.encode_hex efNoCodec (Value.tok 0) = Except.error PyErr.attributeError :=
  ⟨rfl, rfl⟩

/-- Claim C9, evaluated on the scenario tree (Root, Application
`a0000000871002` named `ADF_USIM` built with `parent=mf`, Transparent leaf
`6f07` named `EF.IMSI` added below it): the Root's selectables do include
the AID and the name (both mapping to the Application, node 1), and
`select("ADF_USIM")` succeeds issuing one `select_adf`; but the selectables
of the now-current Application map `6f07`/`EF.IMSI` to the leaf (node 2)
and `..` to the Root (node 0) while containing **no `.` key at all** —
line 101 of `File.get_selectables` discards the self-entry — contradicting
the claimed `.` → Application entry. -/
theorem claim_C9_scenario :
    (MF.add_application fs9Init 0 1).1 = none ∧
    (DF.add_file fs9Mid 1 2 false).1 = none ∧
    (File.get_selectables_dyn fs9 8 0).map
        (fun s => (alFind? s (some "a0000000871002"), alFind? s (some "ADF_USIM"))) =
      Except.ok (some 1, some 1) ∧
    RuntimeState.select fs9 8 ⟨0, 0⟩ "ADF_USIM" =
      (none, [TransportCall.selectAdf (some "a0000000871002")], ⟨0, 1⟩) ∧
    (File.get_selectables_dyn fs9 8 1).map
        (fun s => (alFind? s (some "6f07"), alFind? s (some "EF.IMSI"),
                   alFind? s (some "."), alFind? s (some ".."))) =
      Except.ok (some 2, some 2, none, some 0) :=
  ⟨rfl, rfl, rfl, rfl, rfl⟩

/-- Claim C6 counterexample: inserting a child whose `sfid` duplicates an
existing sibling's, with the ignore-existing mode **set**, still raises
`ValueError` (the duplicate-sfid branch of `DF.add_file`, line 135, has no
`ignore_existing` escape), contradicting the claim that every duplicate
case is silenced by the mode. -/
theorem claim_C6_counterexample :
    DF.add_file fsC6 0 2 true =
      (some (PyErr.valueError "File with given sfid 1 already exists"), fsC6) :=
  rfl

/-- Claim C6 as amended: insertion under a Directory fails on a duplicate
`fid`, `sfid` or `name`, and application registration at the Root fails on
a duplicate `aid`; when the ignore-existing mode is set, the duplicate-fid
and duplicate-name cases instead return silently leaving the heap
unchanged, but a duplicate `sfid` still raises even with the mode set, and
`MF.add_application` offers no ignore mode, so a duplicate `aid` always
raises.  In every case the heap (children, applications, parents) is
returned unchanged. -/
theorem claim_C6_amended :
    (∀ (fs : FS) (d c : Nat) (drec crec : FileRec),
        fs[d]? = some drec → fs[c]? = some crec →
        nameIsReserved crec = false → fidIsReserved crec = false →
        (alFind? drec.children crec.fid).isSome = true →
        DF.add_file fs d c false =
          (some (PyErr.valueError
            ("File with given fid " ++ pyStr crec.fid ++ " already exists")), fs) ∧
        DF.add_file fs d c true = (none, fs)) ∧
    (∀ (fs : FS) (d c : Nat) (drec crec : FileRec) (ig : Bool),
        fs[d]? = some drec → fs[c]? = some crec →
        nameIsReserved crec = false → fidIsReserved crec = false →
        (alFind? drec.children crec.fid).isSome = false →
        (DF.lookup_file_by_sfid fs drec crec.sfid).isSome = true →
        DF.add_file fs d c ig =
          (some (PyErr.valueError
            ("File with given sfid " ++ pyStrN crec.sfid ++ " already exists")), fs)) ∧
    (∀ (fs : FS) (d c : Nat) (drec crec : FileRec),
        fs[d]? = some drec → fs[c]? = some crec →
        nameIsReserved crec = false → fidIsReserved crec = false →
        (alFind? drec.children crec.fid).isSome = false →
        (DF.lookup_file_by_sfid fs drec crec.sfid).isSome = false →
        (DF.lookup_file_by_name fs drec crec.name).isSome = true →
        DF.add_file fs d c false =
          (some (PyErr.valueError
            ("File with given name " ++ pyStr crec.name ++ " already exists")), fs) ∧
        DF.add_file fs d c true = (none, fs)) ∧
    (∀ (fs : FS) (m a : Nat) (mrec arec : FileRec),
        fs[m]? = some mrec → fs[a]? = some arec →
        arec.kind = FileKind.adf →
        (alFind? mrec.applications arec.aid).isSome = true →
        MF.add_application fs m a =
          (some (PyErr.valueError ("AID " ++ pyStr arec.aid ++ " already exists")), fs)) := by
  refine ⟨?_, ?_, ?_, ?_⟩
  · intro fs d c drec crec hd hc h1 h2 h3
    constructor <;> simp [DF.add_file, hd, hc, h1, h2, h3]
  · intro fs d c drec crec ig hd hc h1 h2 h3 h4
    simp [DF.add_file, hd, hc, h1, h2, h3, h4]
  · intro fs d c drec crec hd hc h1 h2 h3 h4 h5
    constructor <;> simp [DF.add_file, hd, hc, h1, h2, h3, h4, h5]
  · intro fs m a mrec arec hm ha h1 h2
    simp [MF.add_application, hm, ha, h1, h2]

/-- Witness for the amended C6, at concrete duplicate-fid, duplicate-sfid,
duplicate-name and duplicate-aid insertions into `fsW6`. -/
theorem claim_C6_amended_witness :
    (DF.add_file fsW6 0 2 false =
       (some (PyErr.valueError "File with given fid 6f01 already exists"), fsW6) ∧
     DF.add_file fsW6 0 2 true = (none, fsW6)) ∧
    DF.add_file fsW6 0 3 true =
      (some (PyErr.valueError "File with given sfid 1 already exists"), fsW6) ∧
    (DF.add_file fsW6 0 4 false =
       (some (PyErr.valueError "File with given name EF.A already exists"), fsW6) ∧
     DF.add_file fsW6 0 4 true = (none, fsW6)) ∧
    MF.add_application fsW6 5 7 =
      (some (PyErr.valueError "AID a01 already exists"), fsW6) :=
  ⟨claim_C6_amended.1 fsW6 0 2 _ _ rfl rfl rfl rfl rfl,
   claim_C6_amended.2.1 fsW6 0 3 _ _ true rfl rfl rfl rfl rfl rfl,
   claim_C6_amended.2.2.1 fsW6 0 4 _ _ rfl rfl rfl rfl rfl rfl rfl,
   claim_C6_amended.2.2.2 fsW6 5 7 _ _ rfl rfl rfl rfl⟩

/-- Claim C7: `read_binary`/`update_binary` raise the wrong-file-type
`TypeError` — with no transport call issued — whenever the selected file is
not a `TransparentEF`/`TransRecEF`; `read_record`/`update_record` raise it
whenever the selected file is not a `LinFixedEF`/`CyclicEF`; in particular
`read_record` on a selected Transparent leaf raises instead of forwarding
(last conjunct). -/
theorem claim_C7_wrong_file_type :
    (∀ (fs : FS) (rs : RuntimeState) (len : Option Nat) (off : Nat) (f : FileRec),
        fs[rs.selected_file]? = some f → isinstanceTransparentEF f.kind = false →
        RuntimeState.read_binary fs rs len off =
          Except.error (PyErr.typeError "Only works with TransparentEF")) ∧
    (∀ (fs : FS) (rs : RuntimeState) (dat : String) (off : Nat) (f : FileRec),
        fs[rs.selected_file]? = some f → isinstanceTransparentEF f.kind = false →
        RuntimeState.update_binary fs rs dat off =
          Except.error (PyErr.typeError "Only works with TransparentEF")) ∧
    (∀ (fs : FS) (rs : RuntimeState) (nr : Nat) (f : FileRec),
        fs[rs.selected_file]? = some f → isinstanceLinFixedEF f.kind = false →
        RuntimeState.read_record fs rs nr =
          Except.error (PyErr.typeError "Only works with Linear Fixed EF")) ∧
    (∀ (fs : FS) (rs : RuntimeState) (nr : Nat) (dat : String) (f : FileRec),
        fs[rs.selected_file]? = some f → isinstanceLinFixedEF f.kind = false →
        RuntimeState.update_record fs rs nr dat =
          Except.error (PyErr.typeError "Only works with Linear Fixed EF")) ∧
    (∀ (fs : FS) (rs : RuntimeState) (nr : Nat) (f : FileRec),
        fs[rs.selected_file]? = some f → isinstanceTransparentEF f.kind = true →
        RuntimeState.read_record fs rs nr =
          Except.error (PyErr.typeError "Only works with Linear Fixed EF")) := by
  refine ⟨?_, ?_, ?_, ?_, ?_⟩
  · intro fs rs len off f hf hk
    simp [RuntimeState.read_binary, hf, hk]
  · intro fs rs dat off f hf hk
    simp [RuntimeState.update_binary, hf, hk]
  · intro fs rs nr f hf hk
    simp [RuntimeState.read_record, hf, hk]
  · intro fs rs nr dat f hf hk
    simp [RuntimeState.update_record, hf, hk]
  · intro fs rs nr f hf hk
    have hlin : isinstanceLinFixedEF f.kind = false := by
      cases hk2 : f.kind <;> simp_all [isinstanceTransparentEF, isinstanceLinFixedEF]
    simp [RuntimeState.read_record, hf, hlin]

/-- Witness for C7: with the `MF` root selected, all four operations raise
the wrong-file-type error; with the Transparent leaf selected,
`read_record` raises. -/
theorem claim_C7_wrong_file_type_witness :
    RuntimeState.read_binary fsW7 ⟨0, 0⟩ none 0 =
      Except.error (PyErr.typeError "Only works with TransparentEF") ∧
    RuntimeState.update_binary fsW7 ⟨0, 0⟩ "001122" 0 =
      Except.error (PyErr.typeError "Only works with TransparentEF") ∧
    RuntimeState.read_record fsW7 ⟨0, 0⟩ 1 =
      Except.error (PyErr.typeError "Only works with Linear Fixed EF") ∧
    RuntimeState.update_record fsW7 ⟨0, 0⟩ 1 "001122" =
      Except.error (PyErr.typeError "Only works with Linear Fixed EF") ∧
    RuntimeState.read_record fsW7 ⟨0, 1⟩ 1 =
      Except.error (PyErr.typeError "Only works with Linear Fixed EF") :=
  ⟨claim_C7_wrong_file_type.1 fsW7 ⟨0, 0⟩ none 0 _ rfl rfl,
   claim_C7_wrong_file_type.2.1 fsW7 ⟨0, 0⟩ "001122" 0 _ rfl rfl,
   claim_C7_wrong_file_type.2.2.1 fsW7 ⟨0, 0⟩ 1 _ rfl rfl,
   claim_C7_wrong_file_type.2.2.2.1 fsW7 ⟨0, 0⟩ 1 "001122" _ rfl rfl,
   claim_C7_wrong_file_type.2.2.2.2 fsW7 ⟨0, 1⟩ 1 _ rfl rfl⟩

/-- Claim C2: when the identifier is absent from the selectables of the
currently selected file, `RuntimeState.select` raises
`ValueError("Cannot select unknown ..")`, issues no transport call, and
leaves the session state (in particular `selected_file`) unchanged. -/
theorem claim_C2_select_unknown (fs : FS) (fuel : Nat) (rs : RuntimeState)
    (name : String) (sels : PyDict)
    (hs : File.get_selectables_dyn fs fuel rs.selected_file = Except.ok sels)
    (habs : alFind? sels (some name) = none) :
    RuntimeState.select fs fuel rs name =
      (some (PyErr.valueError ("Cannot select unknown " ++ name)), [], rs) := by
  simp [RuntimeState.select, hs, habs]

/-- Witness for C2: selecting the unknown identifier `7fff` from the `MF()`
root fails with the navigation error and changes nothing. -/
theorem claim_C2_select_unknown_witness :
    RuntimeState.select fsMF 4 ⟨0, 0⟩ "7fff" =
      (some (PyErr.valueError "Cannot select unknown 7fff"), [], ⟨0, 0⟩) :=
  claim_C2_select_unknown fsMF 4 ⟨0, 0⟩ "7fff" selsMF rfl rfl

/-- Claim C10: every raising branch of `DF.add_file` precedes both
mutations (`self.children[child.fid] = child` and `child.parent = self`),
so whenever the call raises, the heap — the directory's children and the
candidate's parent included — is exactly as before the call. -/
theorem claim_C10_validation_before_mutation
    (fs : FS) (self child : Nat) (ig : Bool) (e : PyErr) (fs2 : FS)
    (h : DF.add_file fs self child ig = (some e, fs2)) : fs2 = fs := by
  unfold DF.add_file at h
  repeat' split at h
  all_goals simp_all

/-- Witness for C10: adding a child bearing the reserved name `MF` raises
and returns the heap unchanged. -/
theorem claim_C10_validation_before_mutation_witness :
    (DF.add_file fsW10 0 1 false).1 =
      some (PyErr.valueError "File name MF is a reserved name") ∧ fsW10 = fsW10 :=
  ⟨rfl,
   claim_C10_validation_before_mutation fsW10 0 1 false
     (PyErr.valueError "File name MF is a reserved name") fsW10 rfl⟩

/-- Claim C8: from any node whose parent chain reaches, in `k` steps, a
Root (an `MF` with `parent == self`), `File.fully_qualified_path`
terminates — it succeeds for every fuel beyond the chain length — and
returns a non-empty list whose first element identifies the Root: its name
when `prefer_name` is set and a name exists, otherwise its fid. -/
theorem claim_C8_fully_qualified_path (fs : FS) (n r k : Nat) (prefer_name : Bool)
    (h : ReachesRoot fs n r k) :
    ∀ fuel, k < fuel →
      ∃ (l : List (Option String)) (rrec : FileRec),
        fs[r]? = some rrec ∧ rrec.kind = FileKind.mf ∧
        File.fully_qualified_path fs fuel n prefer_name = Except.ok l ∧
        l ≠ [] ∧
        l.head? = some (if prefer_name && truthyS rrec.name then rrec.name else rrec.fid) := by
  induction h with
  | root n0 f hf hp hk =>
    intro fuel hfuel
    obtain ⟨m, rfl⟩ : ∃ m, fuel = m + 1 := ⟨fuel - 1, by omega⟩
    refine ⟨[path_element_dyn f prefer_name], f, hf, hk, ?_, by simp, ?_⟩
    · simp [File.fully_qualified_path, hf, hp]
    · simp [path_element_dyn, hk, File._path_element]
  | step n0 p r0 k0 f hf hp hne ht ih =>
    intro fuel hfuel
    obtain ⟨m, rfl⟩ : ∃ m, fuel = m + 1 := ⟨fuel - 1, by omega⟩
    obtain ⟨l, rrec, hr, hkmf, hfqp, hlne, hhead⟩ := ih m (by omega)
    refine ⟨l ++ [path_element_dyn f prefer_name], rrec, hr, hkmf, ?_, by simp, ?_⟩
    · simp [File.fully_qualified_path, hf, hp, hne, hfqp]
    · cases l with
      | nil => exact absurd rfl hlne
      | cons a t =>
        simp only [List.cons_append, List.head?_cons] at hhead ⊢
        exact hhead

/-- Witness for C8: in the heap with the `MF()` root and an `ADF` below it,
the path of the `ADF` (fuel 3) starts at the Root, identified by its name
`MF`. -/
theorem claim_C8_fully_qualified_path_witness :
    ∃ (l : List (Option String)) (rrec : FileRec),
      fsMFDF[0]? = some rrec ∧ rrec.kind = FileKind.mf ∧
      File.fully_qualified_path fsMFDF 3 1 true = Except.ok l ∧
      l ≠ [] ∧
      l.head? = some (if true && truthyS rrec.name then rrec.name else rrec.fid) :=
  claim_C8_fully_qualified_path fsMFDF 1 0 1 true
    (ReachesRoot.step 1 0 0 0 _ rfl rfl (by decide)
      (ReachesRoot.root 0 _ rfl rfl rfl)) 3 (by decide)

/-- Claim C3 as amended: for a `TransRecEF` with fixed record length
`R > 0` whose type-specific record-level binary decoder and encoder are
both **defined** and round-trip on records of length `R`, decoding then
encoding reproduces any byte string whose length is a multiple of `R`.
(The original claim's further assertion about the default record codec is
refuted separately: the default record decoder raises.) -/
theorem claim_C3_amended_roundtrip (ef : TransRecEFRec) (R : Nat)
    (d : Bytes → Value) (e : Value → Bytes)
    (hR : 0 < R) (hrl : ef.rec_len = some R)
    (hd : ef.decRecBin = some d) (he : ef.encRecBin = some e)
    (hrt : ∀ c : Bytes, c.length = R → e (d c) = c)
    (raw : Bytes) (hlen : raw.length % R = 0) :
    (TransRecEF._decode_bin ef raw).bind (TransRecEF._encode_bin ef) = Except.ok raw := by
  have hchunk : ∀ c ∈ pySliceChunks raw R, c.length = R :=
    pySliceChunks_length_aux R hR raw.length raw (Nat.le_refl _) hlen
  have hdec : (pySliceChunks raw R).mapM (TransRecEF.decode_record_bin ef) =
      Except.ok ((pySliceChunks raw R).map d) := by
    apply mapM_ok_of_ok
    intro c _
    simp [TransRecEF.decode_record_bin, hd, getattrOrRaise]
  have henc : ((pySliceChunks raw R).map d).mapM (TransRecEF.encode_record_bin ef) =
      Except.ok (((pySliceChunks raw R).map d).map e) := by
    apply mapM_ok_of_ok
    intro v _
    simp [TransRecEF.encode_record_bin, he, getattrOrRaise]
  have hmap : (((pySliceChunks raw R).map d).map e) = pySliceChunks raw R := by
    rw [List.map_map]
    have h2 : List.map (e ∘ d) (pySliceChunks raw R) = List.map id (pySliceChunks raw R) :=
      List.map_congr_left (fun c hc => by
        simp only [Function.comp_apply, id_eq]
        exact hrt c (hchunk c hc))
    rw [h2, List.map_id]
  have hR0 : ¬ (R = 0) := by omega
  have hdecfull : TransRecEF._decode_bin ef raw =
      Except.ok ((pySliceChunks raw R).map d) := by
    simp only [TransRecEF._decode_bin, hrl]
    rw [if_neg hR0]
    exact hdec
  rw [hdecfull]
  show TransRecEF._encode_bin ef ((pySliceChunks raw R).map d) = Except.ok raw
  simp only [TransRecEF._encode_bin]
  rw [henc, hmap]
  show Except.ok (pySliceChunks raw R).flatten = Except.ok raw
  rw [flatten_pySliceChunks R hR raw]

/-- Witness for the amended C3: record length 2 with a concrete
round-tripping record codec on the four-byte input `[1, 2, 3, 4]`. -/
theorem claim_C3_amended_roundtrip_witness :
    0 < 2 ∧ ([1, 2, 3, 4] : Bytes).length % 2 = 0 ∧
    (∀ c : Bytes, c.length = 2 → encBinW (decBinW c) = c) ∧
    (TransRecEF._decode_bin efW3 [1, 2, 3, 4]).bind (TransRecEF._encode_bin efW3) =
      Except.ok [1, 2, 3, 4] :=
  ⟨by decide, by decide, fun c _ => rfl,
   claim_C3_amended_roundtrip efW3 2 decBinW encBinW (by decide) rfl rfl rfl
     (fun c _ => rfl) [1, 2, 3, 4] (by decide)⟩

/-- Claim C3 counterexample: with the **default** record codec (no
type-specific record decoder/encoder defined, record length 1), decoding
already raises `AttributeError` (default-less `getattr`), so
decode-then-encode yields an error, not the original byte string. -/
theorem claim_C3_default_codec_counterexample :
    (TransRecEF._decode_bin efW3default [0]).bind (TransRecEF._encode_bin efW3default) =
      Except.error PyErr.attributeError ∧
    (TransRecEF._decode_bin efW3default [0]).bind (TransRecEF._encode_bin efW3default) ≠
      Except.ok [0] :=
  ⟨rfl, fun hco => Except.noConfusion hco⟩
